import Mathlib

/-!
# Verification of the fault-injecting stats proxy (`poop_mp.py`)

Shallow embedding of the fault-injection test harness: the proxy
`MockMemoryInfo` (a `unittest.mock.Mock` whose `side_effect` is the closure
produced by `_wrap_mem_info`), its `reset` operation, the wrapped
`_get_memory` substitute (`wrap_get_memory`), the scenario runner
`test_memory_usage_exception_in_get_memory_call`, and the resource events of
`main`.

Modelling decisions, each justified by the Python semantics of the source:

* A `psutil` memory record (`pfullmem` namedtuple) is a `StatsRecord`: an
  ordered association list of field names to values.  A field value is
  `Option Int`: `none` is Python `None` (the missing-value sentinel), `some v`
  an integer measurement.  `namedtuple._replace(**{name: v})` replaces the
  named field and raises `ValueError` when the name is not a field, so
  `replaceField` is fallible.
* Python exceptions are the inductive `PyErr`.  The absent-subject failure of
  calling the unbound `memory_full_info` with no process argument is a
  `TypeError`; the monitor's malformed-measurement error is `RuntimeError`.
* `unittest.mock.Mock.__call__` increments `call_count` *before* running the
  `side_effect`, so inside `mock_mem_info` the counter already names the
  current (1-indexed) call, and the counter increments even when the side
  effect raises.  State mutations made before an exception persist, so the
  step function returns the (possibly partially mutated) state together with
  an `Except` result: `MockState × Except PyErr StatsRecord`.
* `shared_data` is a `SyncManager` dict proxy; its item assignment and list
  append go over IPC and can raise.  The two channel operations are therefore
  parameters of the step function; `sdSetCallCount` / `sdAppend` are their
  faithful never-failing instantiations.  The source wraps neither operation
  in a `try`, so a channel failure propagates out of the mock call.
-/

/-- A process identifier / `psutil.Process` subject. -/
abbrev Subject : Type := Nat

/-- Python exceptions distinguished by the harness. -/
inductive PyErr : Type where
  /-- `TypeError`: the unbound provider query was invoked without its subject. -/
  | typeError : PyErr
  /-- `ValueError`: e.g. `namedtuple._replace` given an unknown field name. -/
  | valueError : PyErr
  /-- `RuntimeError`: the monitor's malformed-measurement error. -/
  | runtimeError : PyErr
  /-- Any other exception, tagged by its message. -/
  | other (msg : String) : PyErr
deriving DecidableEq, Repr

/-- A memory-statistics record (`psutil` `pfullmem` namedtuple): named fields,
each holding either an integer measurement or Python `None`. -/
structure StatsRecord : Type where
  fields : List (String × Option Int)
deriving DecidableEq, Repr

/-- `getattr(record, name)` on the namedtuple, as far as the harness reads it:
`some v` when the field exists with value `v`, `none` when absent. -/
def StatsRecord.getField (r : StatsRecord) (name : String) : Option (Option Int) :=
  (r.fields.find? (fun p => p.1 = name)).map Prod.snd

/-- Whether the record has a field of the given name. -/
def StatsRecord.hasField (r : StatsRecord) (name : String) : Bool :=
  r.fields.any (fun p => p.1 = name)

/-- `record._replace(**{name: v})`: a copy with the named field set to `v`;
raises `ValueError` when `name` is not one of the record's fields. -/
def replaceField (r : StatsRecord) (name : String) (v : Option Int) :
    Except PyErr StatsRecord :=
  if r.hasField name then
    .ok ⟨r.fields.map (fun p => if p.1 = name then (p.1, v) else p)⟩
  else
    .error .valueError

/-- The cross-process result channel: the manager dict
`{"call_count": ..., "mock_returns": [...]}`. -/
structure SharedData : Type where
  callCount : Nat
  mockReturns : List StatsRecord
deriving DecidableEq, Repr

/-- The mutable state of a `MockMemoryInfo` instance: the fault schedule
`fail_when`, the target field `attr_name`, the `Mock` call counter, the local
`mock_returns` log, the bound shared channel, and the parent-subject resolver
`parent_mock` (modelled by the subject it resolves to). -/
structure MockState : Type where
  failWhen : List Nat
  attrName : String
  callCount : Nat
  mockReturns : List StatsRecord
  sharedData : Option SharedData
  parentMock : Option Subject
deriving DecidableEq, Repr

/-- Item assignment `shared_data['call_count'] = cc` on the faithful
(non-failing) channel. -/
def sdSetCallCount (sd : SharedData) (cc : Nat) : Except PyErr SharedData :=
  .ok { sd with callCount := cc }

/-- Append `shared_data['mock_returns'].append(minfo)` on the faithful
channel. -/
def sdAppend (sd : SharedData) (r : StatsRecord) : Except PyErr SharedData :=
  .ok { sd with mockReturns := sd.mockReturns ++ [r] }

/-- The body of `mock_mem_info` after the provider record `minfo` has been
obtained (source lines 89-101): choose the sentinel by membership of the
(already incremented) call counter in `fail_when`, `_replace` the target
field, append to `mock_returns`, then perform the two channel writes when a
channel is bound.  `wcc` and `wapp` are the channel's item-assignment and
append operations; a failure of either propagates, with all mutations made
before the failure kept. -/
def processRecord (wcc : SharedData → Nat → Except PyErr SharedData)
    (wapp : SharedData → StatsRecord → Except PyErr SharedData)
    (st : MockState) (minfo : StatsRecord) :
    MockState × Except PyErr StatsRecord :=
  let rep :=
    if st.callCount ∈ st.failWhen then
      replaceField minfo st.attrName none
    else
      replaceField minfo st.attrName (some 123456789)
  match rep with
  | .error e => (st, .error e)
  | .ok minfo =>
    let st := { st with mockReturns := st.mockReturns ++ [minfo] }
    match st.sharedData with
    | none => (st, .ok minfo)
    | some sd =>
      match wcc sd st.callCount with
      | .error e => (st, .error e)
      | .ok sd1 =>
        let st := { st with sharedData := some sd1 }
        match wapp sd1 minfo with
        | .error e => (st, .error e)
        | .ok sd2 => ({ st with sharedData := some sd2 }, .ok minfo)

/-- One invocation of the mock (`Mock.__call__` running the `mock_mem_info`
side effect, source lines 78-101).  `orig` is the real provider's query,
applied to the positional arguments; `Mock` first increments `call_count`,
then the side effect tries `orig(*a)`; on `TypeError` it retries once with
the resolved parent subject prepended when `parent_mock` is configured, and
re-raises otherwise; every other provider error propagates untouched. -/
def mockMemInfo (orig : List Subject → Except PyErr StatsRecord)
    (wcc : SharedData → Nat → Except PyErr SharedData)
    (wapp : SharedData → StatsRecord → Except PyErr SharedData)
    (st : MockState) (args : List Subject) :
    MockState × Except PyErr StatsRecord :=
  let st := { st with callCount := st.callCount + 1 }
  match orig args with
  | .ok minfo => processRecord wcc wapp st minfo
  | .error .typeError =>
    match st.parentMock with
    | some p =>
      match orig (p :: args) with
      | .ok minfo => processRecord wcc wapp st minfo
      | .error e => (st, .error e)
    | none => (st, .error .typeError)
  | .error e => (st, .error e)

/-- `MockMemoryInfo.reset` (source lines 72-74): `reset_mock()` zeroes the
`Mock` call counter, and `mock_returns` is re-bound to a fresh empty list.
Neither touches `fail_when`, `attr_name`, `shared_data` or `parent_mock`
(they are plain attributes, not child mocks). -/
def MockState.reset (st : MockState) : MockState :=
  { st with callCount := 0, mockReturns := [] }

/-- The state of a freshly constructed `MockMemoryInfo(orig, fail_when, name)`
(source lines 62-70), with the schedule taken by value. -/
def initState (failWhen : List Nat) (attrName : String) : MockState :=
  { failWhen := failWhen
    attrName := attrName
    callCount := 0
    mockReturns := []
    sharedData := none
    parentMock := none }

/-- A run: invoke the mock once per element of `argss`, threading the state. -/
def runCalls (orig : List Subject → Except PyErr StatsRecord)
    (wcc : SharedData → Nat → Except PyErr SharedData)
    (wapp : SharedData → StatsRecord → Except PyErr SharedData)
    (st : MockState) (argss : List (List Subject)) : MockState :=
  argss.foldl (fun s args => (mockMemInfo orig wcc wapp s args).1) st

/-! ## Concrete test fixtures -/

/-- A concrete `pfullmem`-shaped record, standing in for what
`psutil.Process.memory_full_info()` returns. -/
def sampleRecord : StatsRecord :=
  ⟨[("rss", some 1000), ("vms", some 2000), ("uss", some 4321), ("swap", some 0)]⟩

/-- A provider whose query always succeeds with `sampleRecord`. -/
def goodProvider : List Subject → Except PyErr StatsRecord :=
  fun _ => .ok sampleRecord

/-- A provider whose query always raises a non-`TypeError` exception. -/
def raisingProvider : List Subject → Except PyErr StatsRecord :=
  fun _ => .error (.other "AccessDenied")

/-! ## Helper lemmas -/

/-- In a field list containing `name`, looking `name` up after the update map
of `_replace` yields the new value. -/
theorem find_map_replace (l : List (String × Option Int)) (name : String) (v : Option Int)
    (h : l.any (fun p => p.1 = name) = true) :
    ((l.map (fun p => if p.1 = name then (p.1, v) else p)).find?
        (fun p => p.1 = name)).map Prod.snd = some v := by
  induction l with
  | nil => simp at h
  | cons p t ih =>
    by_cases hp : p.1 = name
    · simp [List.find?, hp]
    · have ht : t.any (fun q => q.1 = name) = true := by
        simp only [List.any_cons, decide_eq_true_eq, hp] at h
        simpa using h
      simpa [List.find?, hp] using ih ht

/-- On a successful `_replace`, reading back the replaced field gives the new
value. -/
theorem replaceField_getField (r : StatsRecord) (name : String) (v : Option Int)
    (r' : StatsRecord) (h : replaceField r name v = .ok r') :
    r'.getField name = some v := by
  unfold replaceField at h
  by_cases hf : r.hasField name = true
  · rw [if_pos hf] at h
    cases h
    rw [StatsRecord.getField]
    exact find_map_replace r.fields name v (by rw [StatsRecord.hasField] at hf; exact hf)
  · rw [if_neg hf] at h
    exact absurd h (by simp)

/-- A record that has the target field can always be `_replace`d. -/
theorem hasField_replaceField (r : StatsRecord) (name : String) (v : Option Int)
    (h : r.hasField name = true) :
    replaceField r name v =
      .ok ⟨r.fields.map (fun p => if p.1 = name then (p.1, v) else p)⟩ := by
  unfold replaceField
  simp [h]

/-- Inversion for `processRecord`: a returned record is exactly the
`_replace`d provider record, with the sentinel chosen by the counter's
membership in the schedule. -/
theorem processRecord_ok_inv (wcc : SharedData → Nat → Except PyErr SharedData)
    (wapp : SharedData → StatsRecord → Except PyErr SharedData)
    (st : MockState) (minfo m : StatsRecord)
    (h : (processRecord wcc wapp st minfo).2 = .ok m) :
    (if st.callCount ∈ st.failWhen then
        replaceField minfo st.attrName none
      else
        replaceField minfo st.attrName (some 123456789)) = .ok m := by
  unfold processRecord at h
  by_cases hc : st.callCount ∈ st.failWhen
  · rw [if_pos hc] at h ⊢
    cases hr : replaceField minfo st.attrName none with
    | error e => rw [hr] at h; simp at h
    | ok m1 =>
      rw [hr] at h
      cases hsd : st.sharedData with
      | none => simp [hsd] at h; rw [h]
      | some sd =>
        simp only [hsd] at h
        cases hw : wcc sd st.callCount with
        | error e => simp [hw] at h
        | ok sd1 =>
          simp only [hw] at h
          cases ha : wapp sd1 m1 with
          | error e => simp [ha] at h
          | ok sd2 => simp [ha] at h; rw [h]
  · rw [if_neg hc] at h ⊢
    cases hr : replaceField minfo st.attrName (some 123456789) with
    | error e => rw [hr] at h; simp at h
    | ok m1 =>
      rw [hr] at h
      cases hsd : st.sharedData with
      | none => simp [hsd] at h; rw [h]
      | some sd =>
        simp only [hsd] at h
        cases hw : wcc sd st.callCount with
        | error e => simp [hw] at h
        | ok sd1 =>
          simp only [hw] at h
          cases ha : wapp sd1 m1 with
          | error e => simp [ha] at h
          | ok sd2 => simp [ha] at h; rw [h]

/-- Inversion for `mockMemInfo`: a returned record came out of
`processRecord` run at the incremented counter. -/
theorem mockMemInfo_ok_inv (orig : List Subject → Except PyErr StatsRecord)
    (wcc : SharedData → Nat → Except PyErr SharedData)
    (wapp : SharedData → StatsRecord → Except PyErr SharedData)
    (st : MockState) (args : List Subject) (m : StatsRecord)
    (h : (mockMemInfo orig wcc wapp st args).2 = .ok m) :
    ∃ minfo,
      (processRecord wcc wapp { st with callCount := st.callCount + 1 } minfo).2 = .ok m := by
  unfold mockMemInfo at h
  cases ho : orig args with
  | ok minfo =>
    rw [ho] at h
    exact ⟨minfo, h⟩
  | error e =>
    rw [ho] at h
    cases e with
    | typeError =>
      cases hp : st.parentMock with
      | none => simp [hp] at h
      | some p =>
        simp only [hp] at h
        cases ho2 : orig (p :: args) with
        | ok minfo =>
          rw [ho2] at h
          exact ⟨minfo, h⟩
        | error e2 => rw [ho2] at h; simp at h
    | valueError => simp at h
    | runtimeError => simp at h
    | other msg => simp at h

/-! ## C1: the fault schedule determines the sentinel of every returned record -/

/-- C1: for every invocation of the proxy's query that returns a derived
record, if the new call counter value (the counter after the `Mock`
increment) is a member of the fault schedule then the returned record has
the target field replaced by the missing-value sentinel `None`, and
otherwise replaced by the fixed known-good sentinel `123456789`; the target
field is always overwritten.  The particular run with fault schedule `{2}`
(record 1 known-good, record 2 missing) is exhibited by the witness. -/
theorem c1_sentinel_by_fault_schedule
    (orig : List Subject → Except PyErr StatsRecord)
    (wcc : SharedData → Nat → Except PyErr SharedData)
    (wapp : SharedData → StatsRecord → Except PyErr SharedData)
    (st : MockState) (args : List Subject) (m : StatsRecord)
    (h : (mockMemInfo orig wcc wapp st args).2 = .ok m) :
    m.getField st.attrName =
      some (if st.callCount + 1 ∈ st.failWhen then none else some 123456789) := by
  obtain ⟨minfo, hp⟩ := mockMemInfo_ok_inv orig wcc wapp st args m h
  have hrep := processRecord_ok_inv wcc wapp _ minfo m hp
  by_cases hc : st.callCount + 1 ∈ st.failWhen
  · rw [if_pos hc]
    rw [if_pos (by exact hc)] at hrep
    exact replaceField_getField minfo st.attrName none m hrep
  · rw [if_neg hc]
    rw [if_neg (by exact hc)] at hrep
    exact replaceField_getField minfo st.attrName (some 123456789) m hrep

/-- Witness for C1: the concrete `{2}` scenario of the spec — two calls with
fault schedule `[2]`; the first returned record carries the known-good
sentinel, the second the missing-value sentinel. -/
theorem c1_sentinel_by_fault_schedule_witness :
    ∃ m1 m2,
      (mockMemInfo goodProvider sdSetCallCount sdAppend (initState [2] "uss") [7]).2 = .ok m1 ∧
      (mockMemInfo goodProvider sdSetCallCount sdAppend
        (mockMemInfo goodProvider sdSetCallCount sdAppend (initState [2] "uss") [7]).1 [7]).2 = .ok m2 ∧
      m1.getField "uss" = some (some 123456789) ∧
      m2.getField "uss" = some none := by
  refine ⟨⟨[("rss", some 1000), ("vms", some 2000), ("uss", some 123456789), ("swap", some 0)]⟩,
          ⟨[("rss", some 1000), ("vms", some 2000), ("uss", none), ("swap", some 0)]⟩,
          rfl, rfl, ?_, ?_⟩
  · have h1 := c1_sentinel_by_fault_schedule goodProvider sdSetCallCount sdAppend
      (initState [2] "uss") [7]
      ⟨[("rss", some 1000), ("vms", some 2000), ("uss", some 123456789), ("swap", some 0)]⟩ rfl
    simpa using h1
  · have h2 := c1_sentinel_by_fault_schedule goodProvider sdSetCallCount sdAppend
      ((mockMemInfo goodProvider sdSetCallCount sdAppend (initState [2] "uss") [7]).1) [7]
      ⟨[("rss", some 1000), ("vms", some 2000), ("uss", none), ("swap", some 0)]⟩ rfl
    simpa using h2

/-! ## C2: call counter vs. CallLog length -/

/-- The state update of `processRecord` never touches the counter, the
schedule, the target field name, or the resolver. -/
theorem processRecord_frame (wcc : SharedData → Nat → Except PyErr SharedData)
    (wapp : SharedData → StatsRecord → Except PyErr SharedData)
    (st : MockState) (minfo : StatsRecord) :
    (processRecord wcc wapp st minfo).1.callCount = st.callCount
    ∧ (processRecord wcc wapp st minfo).1.failWhen = st.failWhen
    ∧ (processRecord wcc wapp st minfo).1.attrName = st.attrName
    ∧ (processRecord wcc wapp st minfo).1.parentMock = st.parentMock := by
  refine ⟨?_, ?_, ?_, ?_⟩ <;> (unfold processRecord; dsimp only; repeat' split) <;> rfl

/-- Every invocation increments the `Mock` call counter by exactly one, no
matter how the provider or the channel behaves. -/
theorem mockMemInfo_callCount (orig : List Subject → Except PyErr StatsRecord)
    (wcc : SharedData → Nat → Except PyErr SharedData)
    (wapp : SharedData → StatsRecord → Except PyErr SharedData)
    (st : MockState) (args : List Subject) :
    (mockMemInfo orig wcc wapp st args).1.callCount = st.callCount + 1 := by
  unfold mockMemInfo
  cases ho : orig args with
  | ok minfo => exact (processRecord_frame wcc wapp _ minfo).1
  | error e =>
    cases e with
    | typeError =>
      cases hp : st.parentMock with
      | none => simp [hp]
      | some p =>
        simp only [hp]
        cases ho2 : orig (p :: args) with
        | ok minfo => exact (processRecord_frame wcc wapp _ minfo).1
        | error e2 => simp
    | valueError => simp
    | runtimeError => simp
    | other msg => simp

/-- Characterization of `processRecord` on a record with the target field
and no channel bound: the derived record is appended and returned. -/
theorem processRecord_noChannel (wcc : SharedData → Nat → Except PyErr SharedData)
    (wapp : SharedData → StatsRecord → Except PyErr SharedData)
    (st : MockState) (minfo : StatsRecord)
    (hf : minfo.hasField st.attrName = true) (hsd : st.sharedData = none) :
    ∃ m, (if st.callCount ∈ st.failWhen then
            replaceField minfo st.attrName none
          else
            replaceField minfo st.attrName (some 123456789)) = .ok m ∧
      processRecord wcc wapp st minfo =
        ({ st with mockReturns := st.mockReturns ++ [m] }, .ok m) := by
  unfold processRecord
  dsimp only
  by_cases hc : st.callCount ∈ st.failWhen
  · rw [if_pos hc, hasField_replaceField minfo st.attrName none hf]
    refine ⟨_, rfl, ?_⟩
    simp only [hsd]
  · rw [if_neg hc, hasField_replaceField minfo st.attrName (some 123456789) hf]
    refine ⟨_, rfl, ?_⟩
    simp only [hsd]

/-- Characterization of a successful invocation with no channel bound: the
counter goes up by one and the derived record is appended to the local log. -/
theorem mockMemInfo_step_noChannel (orig : List Subject → Except PyErr StatsRecord)
    (wcc : SharedData → Nat → Except PyErr SharedData)
    (wapp : SharedData → StatsRecord → Except PyErr SharedData)
    (st : MockState) (args : List Subject) (r : StatsRecord)
    (ho : orig args = .ok r) (hf : r.hasField st.attrName = true)
    (hsd : st.sharedData = none) :
    ∃ m, (if st.callCount + 1 ∈ st.failWhen then
            replaceField r st.attrName none
          else
            replaceField r st.attrName (some 123456789)) = .ok m ∧
      mockMemInfo orig wcc wapp st args =
        ({ st with callCount := st.callCount + 1,
                   mockReturns := st.mockReturns ++ [m] }, .ok m) := by
  obtain ⟨m, hrep, hpr⟩ :=
    processRecord_noChannel wcc wapp { st with callCount := st.callCount + 1 } r hf hsd
  refine ⟨m, hrep, ?_⟩
  unfold mockMemInfo
  rw [ho]
  exact hpr

/-- Whatever the channel binding and the channel writes do, `processRecord`
on a record with the target field appends exactly one derived record to the
local log: the local append (source line 94) precedes the channel writes
(lines 96-97), so it survives any channel-write failure. -/
theorem processRecord_appends (wcc : SharedData → Nat → Except PyErr SharedData)
    (wapp : SharedData → StatsRecord → Except PyErr SharedData)
    (st : MockState) (minfo : StatsRecord)
    (hf : minfo.hasField st.attrName = true) :
    ∃ m, (processRecord wcc wapp st minfo).1.mockReturns = st.mockReturns ++ [m] := by
  unfold processRecord
  dsimp only
  by_cases hc : st.callCount ∈ st.failWhen
  · rw [if_pos hc, hasField_replaceField minfo st.attrName none hf]
    dsimp only
    repeat' split
    all_goals exact ⟨_, rfl⟩
  · rw [if_neg hc, hasField_replaceField minfo st.attrName (some 123456789) hf]
    dsimp only
    repeat' split
    all_goals exact ⟨_, rfl⟩

/-- Every invocation leaves the target-field name `attr_name` unchanged. -/
theorem mockMemInfo_attrName (orig : List Subject → Except PyErr StatsRecord)
    (wcc : SharedData → Nat → Except PyErr SharedData)
    (wapp : SharedData → StatsRecord → Except PyErr SharedData)
    (st : MockState) (args : List Subject) :
    (mockMemInfo orig wcc wapp st args).1.attrName = st.attrName := by
  unfold mockMemInfo
  cases ho : orig args with
  | ok minfo => exact (processRecord_frame wcc wapp _ minfo).2.2.1
  | error e =>
    cases e with
    | typeError =>
      cases hp : st.parentMock with
      | none => simp [hp]
      | some p =>
        simp only [hp]
        cases ho2 : orig (p :: args) with
        | ok minfo => exact (processRecord_frame wcc wapp _ minfo).2.2.1
        | error e2 => simp
    | valueError => simp
    | runtimeError => simp
    | other msg => simp

/-- An invocation whose provider query succeeds (target field present)
appends exactly one derived record to the local log, whether or not a
channel is bound and however its writes behave. -/
theorem mockMemInfo_success_appends (orig : List Subject → Except PyErr StatsRecord)
    (wcc : SharedData → Nat → Except PyErr SharedData)
    (wapp : SharedData → StatsRecord → Except PyErr SharedData)
    (st : MockState) (args : List Subject) (r : StatsRecord)
    (ho : orig args = .ok r) (hf : r.hasField st.attrName = true) :
    ∃ m, (mockMemInfo orig wcc wapp st args).1.mockReturns = st.mockReturns ++ [m] := by
  unfold mockMemInfo
  rw [ho]
  exact processRecord_appends wcc wapp { st with callCount := st.callCount + 1 } r hf

/-- Evidence against C2 as stated: an invocation on which the real provider
raises still increments the counter but appends nothing to `mock_returns`,
so the log length does not equal the counter after that invocation. -/
theorem c2_log_can_lag_counter :
    (mockMemInfo raisingProvider sdSetCallCount sdAppend (initState [1] "uss") []).1.callCount = 1
    ∧ (mockMemInfo raisingProvider sdSetCallCount sdAppend
        (initState [1] "uss") []).1.mockReturns.length = 0
    ∧ (mockMemInfo raisingProvider sdSetCallCount sdAppend
        (initState [1] "uss") []).1.mockReturns.length ≠
      (mockMemInfo raisingProvider sdSetCallCount sdAppend (initState [1] "uss") []).1.callCount := by
  exact ⟨rfl, rfl, by decide⟩

/-- C2 (amended): the call counter increases by exactly one per invocation —
also on invocations where the provider raises — hence equals `k` after `k`
invocations; and the CallLog length equals the call counter after every
invocation of a run in which every provider query succeeds (with the target
field present), whether or not a channel is bound and however its writes
behave, since the local append precedes the channel writes.  An invocation
whose provider query raises increments the counter without appending, so
the lengths then differ. -/
theorem c2_counter_and_log :
    (∀ (orig : List Subject → Except PyErr StatsRecord)
        (wcc : SharedData → Nat → Except PyErr SharedData)
        (wapp : SharedData → StatsRecord → Except PyErr SharedData)
        (st : MockState) (args : List Subject),
        (mockMemInfo orig wcc wapp st args).1.callCount = st.callCount + 1)
    ∧ (∀ (orig : List Subject → Except PyErr StatsRecord)
        (wcc : SharedData → Nat → Except PyErr SharedData)
        (wapp : SharedData → StatsRecord → Except PyErr SharedData)
        (st : MockState) (argss : List (List Subject)),
        (runCalls orig wcc wapp st argss).callCount = st.callCount + argss.length)
    ∧ (∀ (orig : List Subject → Except PyErr StatsRecord)
        (wcc : SharedData → Nat → Except PyErr SharedData)
        (wapp : SharedData → StatsRecord → Except PyErr SharedData)
        (st : MockState) (argss : List (List Subject)),
        st.mockReturns.length = st.callCount →
        (∀ args, ∃ r, orig args = .ok r ∧ r.hasField st.attrName = true) →
        (runCalls orig wcc wapp st argss).mockReturns.length =
          (runCalls orig wcc wapp st argss).callCount) := by
  refine ⟨mockMemInfo_callCount, ?_, ?_⟩
  · intro orig wcc wapp st argss
    induction argss generalizing st with
    | nil => simp [runCalls]
    | cons args rest ih =>
      have hstep := mockMemInfo_callCount orig wcc wapp st args
      simp only [runCalls, List.foldl_cons] at ih ⊢
      rw [ih, hstep, List.length_cons]
      omega
  · intro orig wcc wapp st argss hlen hor
    induction argss generalizing st with
    | nil => simpa [runCalls] using hlen
    | cons args rest ih =>
      obtain ⟨r, ho, hf⟩ := hor args
      obtain ⟨m, hm⟩ := mockMemInfo_success_appends orig wcc wapp st args r ho hf
      have hcc := mockMemInfo_callCount orig wcc wapp st args
      have hattr := mockMemInfo_attrName orig wcc wapp st args
      simp only [runCalls, List.foldl_cons] at ih ⊢
      refine ih _ ?_ ?_
      · rw [hm, hcc, List.length_append, hlen]
        rfl
      · intro a
        rw [hattr]
        exact hor a

/-- Witness for C2 (amended): three successful calls, both on a fresh
channel-free proxy and on a fresh channel-bound proxy, give counter 3 and
log length 3. -/
theorem c2_counter_and_log_witness :
    ((runCalls goodProvider sdSetCallCount sdAppend (initState [1] "uss")
      [[7], [7], [7]]).callCount = 3
    ∧ (runCalls goodProvider sdSetCallCount sdAppend (initState [1] "uss")
        [[7], [7], [7]]).mockReturns.length = 3)
    ∧ ((runCalls goodProvider sdSetCallCount sdAppend
        { initState [1] "uss" with sharedData := some ⟨0, []⟩ }
        [[7], [7], [7]]).callCount = 3
    ∧ (runCalls goodProvider sdSetCallCount sdAppend
        { initState [1] "uss" with sharedData := some ⟨0, []⟩ }
        [[7], [7], [7]]).mockReturns.length = 3) := by
  have h2 := c2_counter_and_log.2.1 goodProvider sdSetCallCount sdAppend
    (initState [1] "uss") [[7], [7], [7]]
  have h3 := c2_counter_and_log.2.2 goodProvider sdSetCallCount sdAppend
    (initState [1] "uss") [[7], [7], [7]] rfl
    (fun _ => ⟨sampleRecord, rfl, by decide⟩)
  have h4 := c2_counter_and_log.2.1 goodProvider sdSetCallCount sdAppend
    { initState [1] "uss" with sharedData := some ⟨0, []⟩ } [[7], [7], [7]]
  have h5 := c2_counter_and_log.2.2 goodProvider sdSetCallCount sdAppend
    { initState [1] "uss" with sharedData := some ⟨0, []⟩ } [[7], [7], [7]] rfl
    (fun _ => ⟨sampleRecord, rfl, by decide⟩)
  exact ⟨⟨by simpa using h2, by rw [h3]; simpa using h2⟩,
    ⟨by simpa using h4, by rw [h5]; simpa using h4⟩⟩

/-! ## C5 and C6: provider-error propagation and the absent-subject retry -/

/-- A provider shaped like the unbound `memory_full_info`: raises `TypeError`
when invoked without a subject, succeeds when given one. -/
def absentSubjectProvider : List Subject → Except PyErr StatsRecord :=
  fun args =>
    match args with
    | [] => .error .typeError
    | _ => .ok sampleRecord

/-- A proxy state with a parent-subject resolver configured. -/
def parentState : MockState :=
  { initState [1] "uss" with parentMock := some 42 }

/-- C5: when the real provider's query raises any exception other than the
absent-subject `TypeError` handled by a configured resolver, the proxy
propagates it unchanged: the result is that very exception, and the state is
untouched except for the `Mock` counter increment — no record is
manufactured, logged, or substituted. -/
theorem c5_provider_errors_propagate
    (orig : List Subject → Except PyErr StatsRecord)
    (wcc : SharedData → Nat → Except PyErr SharedData)
    (wapp : SharedData → StatsRecord → Except PyErr SharedData)
    (st : MockState) (args : List Subject) (e : PyErr)
    (ho : orig args = .error e)
    (hcase : e ≠ .typeError ∨ st.parentMock = none) :
    mockMemInfo orig wcc wapp st args =
      ({ st with callCount := st.callCount + 1 }, .error e) := by
  unfold mockMemInfo
  rw [ho]
  rcases hcase with hne | hp
  · cases e with
    | typeError => exact absurd rfl hne
    | valueError => rfl
    | runtimeError => rfl
    | other msg => rfl
  · cases e with
    | typeError => dsimp only; rw [hp]
    | valueError => rfl
    | runtimeError => rfl
    | other msg => rfl

/-- Witness for C5: a concrete `AccessDenied`-style provider failure comes
back to the caller verbatim, with only the counter incremented. -/
theorem c5_provider_errors_propagate_witness :
    mockMemInfo raisingProvider sdSetCallCount sdAppend (initState [1] "uss") [] =
      ({ initState [1] "uss" with callCount := 1 }, .error (.other "AccessDenied")) :=
  c5_provider_errors_propagate raisingProvider sdSetCallCount sdAppend
    (initState [1] "uss") [] (.other "AccessDenied") rfl (Or.inl (by decide))

/-- C6: when invoking the real provider raises the absent-subject
`TypeError`: with a parent-subject resolver configured the proxy retries the
real query exactly once, with the resolved subject prepended to the original
arguments, and the invocation's outcome is entirely that of processing this
single retry; with no resolver the original `TypeError` is propagated. -/
theorem c6_absent_subject_retry
    (orig : List Subject → Except PyErr StatsRecord)
    (wcc : SharedData → Nat → Except PyErr SharedData)
    (wapp : SharedData → StatsRecord → Except PyErr SharedData)
    (st : MockState) (args : List Subject)
    (ho : orig args = .error .typeError) :
    (∀ p, st.parentMock = some p →
      mockMemInfo orig wcc wapp st args =
        (match orig (p :: args) with
         | .ok minfo => processRecord wcc wapp { st with callCount := st.callCount + 1 } minfo
         | .error e => ({ st with callCount := st.callCount + 1 }, .error e)))
    ∧ (st.parentMock = none →
      mockMemInfo orig wcc wapp st args =
        ({ st with callCount := st.callCount + 1 }, .error .typeError)) := by
  constructor
  · intro p hp
    unfold mockMemInfo
    rw [ho]
    dsimp only
    rw [hp]
  · intro hp
    unfold mockMemInfo
    rw [ho]
    dsimp only
    rw [hp]

/-- Witness for C6: driven as a bound call with no subject, a proxy with a
resolver retries with the resolved subject and succeeds; the same call on a
fresh proxy without a resolver propagates the `TypeError`. -/
theorem c6_absent_subject_retry_witness :
    mockMemInfo absentSubjectProvider sdSetCallCount sdAppend parentState [] =
      processRecord sdSetCallCount sdAppend { parentState with callCount := 1 } sampleRecord
    ∧ mockMemInfo absentSubjectProvider sdSetCallCount sdAppend (initState [1] "uss") [] =
      ({ initState [1] "uss" with callCount := 1 }, .error .typeError) := by
  constructor
  · exact (c6_absent_subject_retry absentSubjectProvider sdSetCallCount sdAppend
      parentState [] rfl).1 42 rfl
  · exact (c6_absent_subject_retry absentSubjectProvider sdSetCallCount sdAppend
      (initState [1] "uss") [] rfl).2 rfl

/-! ## C7: reset clears only the run-local state and is idempotent -/

/-- C7: `reset` sets the call counter to 0 and the CallLog to empty, leaves
the fault schedule, target field, channel binding and resolver unchanged
(so a post-reset run starts with a CallLog holding no records of the
previous run), and is idempotent. -/
theorem c7_reset_frame (st : MockState) :
    st.reset.callCount = 0
    ∧ st.reset.mockReturns = []
    ∧ st.reset.failWhen = st.failWhen
    ∧ st.reset.attrName = st.attrName
    ∧ st.reset.sharedData = st.sharedData
    ∧ st.reset.parentMock = st.parentMock
    ∧ st.reset.reset = st.reset :=
  ⟨rfl, rfl, rfl, rfl, rfl, rfl, rfl⟩

/-! ## C3 and C4: the shared channel -/

/-- A fresh proxy with fault schedule `[2]` bound to a fresh (empty, zeroed)
shared channel. -/
def chanState : MockState :=
  { initState [2] "uss" with sharedData := some ⟨0, []⟩ }

/-- The derived record the proxy produces from `sampleRecord` on a
non-failing call. -/
def goodDerived : StatsRecord :=
  ⟨[("rss", some 1000), ("vms", some 2000), ("uss", some 123456789), ("swap", some 0)]⟩

/-- A channel whose item assignment fails (e.g. the manager process died and
the proxy write raises `BrokenPipeError`). -/
def failingSetCallCount : SharedData → Nat → Except PyErr SharedData :=
  fun _ _ => .error (.other "BrokenPipeError")

/-- A channel whose list append fails (the counter assignment having gone
through). -/
def failingAppend : SharedData → StatsRecord → Except PyErr SharedData :=
  fun _ _ => .error (.other "BrokenPipeError")

/-- Characterization of `processRecord` on a record with the target field,
with a channel bound and both channel writes succeeding: the derived record
is appended locally, the channel counter is overwritten and the record
appended to the channel sequence. -/
theorem processRecord_goodChannel (st : MockState) (minfo : StatsRecord) (sd : SharedData)
    (hf : minfo.hasField st.attrName = true) (hsd : st.sharedData = some sd) :
    ∃ m, (if st.callCount ∈ st.failWhen then
            replaceField minfo st.attrName none
          else
            replaceField minfo st.attrName (some 123456789)) = .ok m ∧
      processRecord sdSetCallCount sdAppend st minfo =
        ({ st with mockReturns := st.mockReturns ++ [m],
                   sharedData := some ⟨st.callCount, sd.mockReturns ++ [m]⟩ }, .ok m) := by
  unfold processRecord
  dsimp only
  by_cases hc : st.callCount ∈ st.failWhen
  · rw [if_pos hc, hasField_replaceField minfo st.attrName none hf]
    refine ⟨_, rfl, ?_⟩
    simp only [hsd]
    rfl
  · rw [if_neg hc, hasField_replaceField minfo st.attrName (some 123456789) hf]
    refine ⟨_, rfl, ?_⟩
    simp only [hsd]
    rfl

/-- Characterization of a successful invocation with a channel bound and the
faithful channel operations. -/
theorem mockMemInfo_step_goodChannel (orig : List Subject → Except PyErr StatsRecord)
    (st : MockState) (args : List Subject) (r : StatsRecord) (sd : SharedData)
    (ho : orig args = .ok r) (hf : r.hasField st.attrName = true)
    (hsd : st.sharedData = some sd) :
    ∃ m, mockMemInfo orig sdSetCallCount sdAppend st args =
      ({ st with callCount := st.callCount + 1,
                 mockReturns := st.mockReturns ++ [m],
                 sharedData := some ⟨st.callCount + 1, sd.mockReturns ++ [m]⟩ }, .ok m) := by
  obtain ⟨m, hrep, hpr⟩ :=
    processRecord_goodChannel { st with callCount := st.callCount + 1 } r sd hf hsd
  refine ⟨m, ?_⟩
  unfold mockMemInfo
  rw [ho]
  exact hpr

/-- Evidence against C3 as stated: `reset` clears only the proxy's local
state, never the bound channel, so after a reset between two runs the
channel sequence retains the first run's record and no longer equals CallLog
element-for-element (here the channel counter happens to agree while the
sequences differ). -/
theorem c3_reset_desyncs_channel :
    ((mockMemInfo goodProvider sdSetCallCount sdAppend
        ((mockMemInfo goodProvider sdSetCallCount sdAppend chanState [7]).1.reset)
        [7]).1.sharedData.map SharedData.mockReturns ≠
      some ((mockMemInfo goodProvider sdSetCallCount sdAppend
        ((mockMemInfo goodProvider sdSetCallCount sdAppend chanState [7]).1.reset)
        [7]).1.mockReturns))
    ∧ ((mockMemInfo goodProvider sdSetCallCount sdAppend
        ((mockMemInfo goodProvider sdSetCallCount sdAppend chanState [7]).1.reset)
        [7]).1.sharedData.map SharedData.callCount =
      some ((mockMemInfo goodProvider sdSetCallCount sdAppend
        ((mockMemInfo goodProvider sdSetCallCount sdAppend chanState [7]).1.reset)
        [7]).1.callCount)) := by
  exact ⟨by decide, rfl⟩

/-- C3 (amended): after an invocation whose provider query succeeds (target
field present, faithful channel writes), a channel that mirrored the proxy's
local state before the call — as a fresh channel on a fresh proxy does —
mirrors it after the call as well: its counter equals the local call counter
and its sequence equals CallLog element-for-element.  The mirroring is not
re-established by `reset`, which leaves the channel contents in place. -/
theorem c3_channel_mirrors_call_log (orig : List Subject → Except PyErr StatsRecord)
    (st : MockState) (args : List Subject) (r : StatsRecord) (sd : SharedData)
    (ho : orig args = .ok r) (hf : r.hasField st.attrName = true)
    (hsd : st.sharedData = some sd)
    (_hcc : sd.callCount = st.callCount)
    (hmr : sd.mockReturns = st.mockReturns) :
    ∃ sd',
      (mockMemInfo orig sdSetCallCount sdAppend st args).1.sharedData = some sd'
      ∧ sd'.callCount = (mockMemInfo orig sdSetCallCount sdAppend st args).1.callCount
      ∧ sd'.mockReturns = (mockMemInfo orig sdSetCallCount sdAppend st args).1.mockReturns := by
  obtain ⟨m, hm⟩ := mockMemInfo_step_goodChannel orig st args r sd ho hf hsd
  rw [hm]
  exact ⟨_, rfl, rfl, by rw [hmr]⟩

/-- Witness for C3 (amended): one successful call on the fresh channel-bound
proxy leaves channel and local state in agreement. -/
theorem c3_channel_mirrors_call_log_witness :
    ∃ sd',
      (mockMemInfo goodProvider sdSetCallCount sdAppend chanState [7]).1.sharedData = some sd'
      ∧ sd'.callCount = (mockMemInfo goodProvider sdSetCallCount sdAppend chanState [7]).1.callCount
      ∧ sd'.mockReturns =
        (mockMemInfo goodProvider sdSetCallCount sdAppend chanState [7]).1.mockReturns :=
  c3_channel_mirrors_call_log goodProvider chanState [7] sampleRecord ⟨0, []⟩
    rfl (by decide) rfl rfl rfl

/-- Evidence against C4 as stated: a failing channel write turns the whole
invocation into an error, instead of being swallowed — the caller does not
receive the derived record the same call returns without a channel. -/
theorem c4_channel_error_reaches_caller :
    (mockMemInfo goodProvider failingSetCallCount sdAppend chanState [7]).2 =
      .error (.other "BrokenPipeError")
    ∧ (mockMemInfo goodProvider sdSetCallCount sdAppend (initState [2] "uss") [7]).2 =
      .ok goodDerived
    ∧ (mockMemInfo goodProvider failingSetCallCount sdAppend chanState [7]).2 ≠
      (mockMemInfo goodProvider sdSetCallCount sdAppend (initState [2] "uss") [7]).2 := by
  refine ⟨rfl, rfl, fun h => ?_⟩
  rw [show (mockMemInfo goodProvider failingSetCallCount sdAppend chanState [7]).2 =
      .error (.other "BrokenPipeError") from rfl,
    show (mockMemInfo goodProvider sdSetCallCount sdAppend (initState [2] "uss") [7]).2 =
      .ok goodDerived from rfl] at h
  exact Except.noConfusion h

/-- C4 (amended): when a channel is bound, a failure of either channel write
— the counter assignment or the record append — is not swallowed by the
proxy: the invocation raises that very error to the caller (so the derived
record is not returned), although the record has already been appended to
the local CallLog before the failing write. -/
theorem c4_channel_failure_propagates (orig : List Subject → Except PyErr StatsRecord)
    (wcc : SharedData → Nat → Except PyErr SharedData)
    (wapp : SharedData → StatsRecord → Except PyErr SharedData)
    (st : MockState) (args : List Subject) (r : StatsRecord) (sd : SharedData) (e : PyErr)
    (ho : orig args = .ok r) (hf : r.hasField st.attrName = true)
    (hsd : st.sharedData = some sd) :
    (wcc sd (st.callCount + 1) = .error e →
      (mockMemInfo orig wcc wapp st args).2 = .error e
      ∧ ∃ m, (mockMemInfo orig wcc wapp st args).1.mockReturns = st.mockReturns ++ [m])
    ∧ (∀ sd1, wcc sd (st.callCount + 1) = .ok sd1 →
        (∀ x, wapp sd1 x = .error e) →
        (mockMemInfo orig wcc wapp st args).2 = .error e
        ∧ ∃ m, (mockMemInfo orig wcc wapp st args).1.mockReturns = st.mockReturns ++ [m]) := by
  constructor
  · intro hw
    unfold mockMemInfo
    rw [ho]
    unfold processRecord
    dsimp only
    by_cases hc : st.callCount + 1 ∈ st.failWhen
    · rw [if_pos (by exact hc), hasField_replaceField r st.attrName none hf]
      simp only [hsd]
      rw [hw]
      exact ⟨rfl, _, rfl⟩
    · rw [if_neg (by exact hc), hasField_replaceField r st.attrName (some 123456789) hf]
      simp only [hsd]
      rw [hw]
      exact ⟨rfl, _, rfl⟩
  · intro sd1 hw1 hw2
    unfold mockMemInfo
    rw [ho]
    unfold processRecord
    dsimp only
    by_cases hc : st.callCount + 1 ∈ st.failWhen
    · rw [if_pos (by exact hc), hasField_replaceField r st.attrName none hf]
      simp only [hsd]
      rw [hw1]
      dsimp only
      rw [hw2]
      exact ⟨rfl, _, rfl⟩
    · rw [if_neg (by exact hc), hasField_replaceField r st.attrName (some 123456789) hf]
      simp only [hsd]
      rw [hw1]
      dsimp only
      rw [hw2]
      exact ⟨rfl, _, rfl⟩

/-- Witness for C4 (amended): a concrete `BrokenPipeError` propagates both
from a failing counter write and from a failing record append, with the
derived record already logged locally in each case. -/
theorem c4_channel_failure_propagates_witness :
    ((mockMemInfo goodProvider failingSetCallCount sdAppend chanState [7]).2 =
        .error (.other "BrokenPipeError")
      ∧ ∃ m, (mockMemInfo goodProvider failingSetCallCount sdAppend chanState [7]).1.mockReturns =
        chanState.mockReturns ++ [m])
    ∧ ((mockMemInfo goodProvider sdSetCallCount failingAppend chanState [7]).2 =
        .error (.other "BrokenPipeError")
      ∧ ∃ m, (mockMemInfo goodProvider sdSetCallCount failingAppend chanState [7]).1.mockReturns =
        chanState.mockReturns ++ [m]) := by
  constructor
  · exact (c4_channel_failure_propagates goodProvider failingSetCallCount sdAppend chanState [7]
      sampleRecord ⟨0, []⟩ (.other "BrokenPipeError") rfl (by decide) rfl).1 rfl
  · exact (c4_channel_failure_propagates goodProvider sdSetCallCount failingAppend chanState [7]
      sampleRecord ⟨0, []⟩ (.other "BrokenPipeError") rfl (by decide) rfl).2
      ⟨1, []⟩ rfl (fun x => rfl)

/-! ## C8: the scenario runner -/

/-- The wrapped `_get_memory` substitute produced by `wrap_get_memory`
(source lines 186-201): call the proxy with the real process as subject and
return the `uss` attribute of what it returns (the fixed
`memory_metric = "uss"`); a mock-call error propagates, a missing attribute
raises `AttributeError`. -/
def mock_get_memory (orig : List Subject → Except PyErr StatsRecord)
    (wcc : SharedData → Nat → Except PyErr SharedData)
    (wapp : SharedData → StatsRecord → Except PyErr SharedData)
    (st : MockState) (pid : Subject) :
    MockState × Except PyErr (Option Int) :=
  match mockMemInfo orig wcc wapp st [pid] with
  | (st1, .ok ret) =>
    match ret.getField "uss" with
    | some mem => (st1, .ok mem)
    | none => (st1, .error (.other "AttributeError"))
  | (st1, .error e) => (st1, .error e)

/-- Modelled from the spec: the memory monitor
`memory_profiler.memory_usage(proc, max_usage=True, backend="psutil_uss")` is
code of this repository that is not present under `src/`.  Per the spec it
repeatedly samples memory through the pluggable get-memory function,
propagates any error raised from that function, and surfaces the
malformed-measurement error (`RuntimeError`) when a sampled value is the
missing sentinel `None`; `budget` is the number of samples the run would
perform if none misbehaved (set externally by wall-clock sampling). -/
def memoryUsage (orig : List Subject → Except PyErr StatsRecord)
    (wcc : SharedData → Nat → Except PyErr SharedData)
    (wapp : SharedData → StatsRecord → Except PyErr SharedData)
    (pid : Subject) : MockState → Nat → MockState × Except PyErr Unit
  | st, 0 => (st, .ok ())
  | st, budget + 1 =>
    match mock_get_memory orig wcc wapp st pid with
    | (st1, .ok (some _)) => memoryUsage orig wcc wapp pid st1 budget
    | (st1, .ok none) => (st1, .error .runtimeError)
    | (st1, .error e) => (st1, .error e)

/-- What the scenario runner observed after a run. -/
structure ScenarioOutcome : Type where
  finalState : MockState
  raisedRuntimeError : Bool
  expectedCount : Nat
deriving Repr

/-- The scenario runner `test_memory_usage_exception_in_get_memory_call`
(source lines 168-183): set `fail_when` to the given schedule, compute
`expected_count = max(when + [1])`, and run the monitor under
`pytest.raises(RuntimeError)` — `raisedRuntimeError` records whether that
expectation was met.  The counter assertions of the source are commented
out: the runner only prints `call_count` and `mock_returns`, so the outcome
carries `expectedCount` without any check against it. -/
def test_memory_usage_exception_in_get_memory_call
    (orig : List Subject → Except PyErr StatsRecord)
    (wcc : SharedData → Nat → Except PyErr SharedData)
    (wapp : SharedData → StatsRecord → Except PyErr SharedData)
    (pid : Subject) (st : MockState) (when : List Nat) (budget : Nat) :
    ScenarioOutcome :=
  let st := { st with failWhen := when }
  let expected_count := (when ++ [1]).foldl Nat.max 0
  let out := memoryUsage orig wcc wapp pid st budget
  { finalState := out.1
    raisedRuntimeError :=
      match out.2 with
      | .error .runtimeError => true
      | _ => false
    expectedCount := expected_count }

/-- One monitor sample on a channel-free proxy whose target field is `uss`:
the counter advances and the sampled value is the sentinel selected by the
schedule. -/
theorem mock_get_memory_step (orig : List Subject → Except PyErr StatsRecord)
    (wcc : SharedData → Nat → Except PyErr SharedData)
    (wapp : SharedData → StatsRecord → Except PyErr SharedData)
    (st : MockState) (pid : Subject) (r : StatsRecord)
    (ho : orig [pid] = .ok r) (hf : r.hasField st.attrName = true)
    (hattr : st.attrName = "uss") (hsd : st.sharedData = none) :
    ∃ m, mock_get_memory orig wcc wapp st pid =
      ({ st with callCount := st.callCount + 1, mockReturns := st.mockReturns ++ [m] },
        .ok (if st.callCount + 1 ∈ st.failWhen then none else some 123456789)) := by
  obtain ⟨m, hrep, hm⟩ := mockMemInfo_step_noChannel orig wcc wapp st [pid] r ho hf hsd
  refine ⟨m, ?_⟩
  unfold mock_get_memory
  rw [hm]
  dsimp only
  by_cases hc : st.callCount + 1 ∈ st.failWhen
  · rw [if_pos hc] at hrep ⊢
    have hg : m.getField "uss" = some none := by
      rw [← hattr]
      exact replaceField_getField r st.attrName none m hrep
    rw [hg]
  · rw [if_neg hc] at hrep ⊢
    have hg : m.getField "uss" = some (some 123456789) := by
      rw [← hattr]
      exact replaceField_getField r st.attrName (some 123456789) m hrep
    rw [hg]

/-- The modelled monitor run on a channel-free `uss` proxy raises
`RuntimeError` as soon as the sampling budget reaches a scheduled fault
index, and it stops with the counter on a scheduled index. -/
theorem memoryUsage_raises (orig : List Subject → Except PyErr StatsRecord)
    (wcc : SharedData → Nat → Except PyErr SharedData)
    (wapp : SharedData → StatsRecord → Except PyErr SharedData)
    (pid : Subject) :
    ∀ (budget : Nat) (st : MockState) (r : StatsRecord),
    orig [pid] = .ok r → r.hasField st.attrName = true →
    st.attrName = "uss" → st.sharedData = none →
    (∃ k ∈ st.failWhen, st.callCount < k ∧ k ≤ st.callCount + budget) →
    (memoryUsage orig wcc wapp pid st budget).2 = .error .runtimeError
    ∧ (memoryUsage orig wcc wapp pid st budget).1.callCount ∈ st.failWhen := by
  intro budget
  induction budget with
  | zero =>
    rintro st r ho hf hattr hsd ⟨k, hkmem, h1, h2⟩
    omega
  | succ n ih =>
    rintro st r ho hf hattr hsd ⟨k, hkmem, h1, h2⟩
    obtain ⟨m, hstep⟩ := mock_get_memory_step orig wcc wapp st pid r ho hf hattr hsd
    unfold memoryUsage
    rw [hstep]
    by_cases hc : st.callCount + 1 ∈ st.failWhen
    · rw [if_pos hc]
      exact ⟨rfl, hc⟩
    · rw [if_neg hc]
      have hkne : k ≠ st.callCount + 1 := fun hEq => hc (hEq ▸ hkmem)
      refine ih { st with callCount := st.callCount + 1,
                          mockReturns := st.mockReturns ++ [m] } r ho hf hattr hsd
        ⟨k, hkmem, ?_, ?_⟩
      · show st.callCount + 1 < k
        omega
      · show k ≤ st.callCount + 1 + n
        omega

/-- Evidence against C8 as stated (with the monitor modelled from the spec):
with fault schedule `{2, 5}` and a sampling budget of 5, the runner's
`RuntimeError` expectation is met, but the final call counter is 2 — the
monitor stops at the first scheduled fault — which is strictly below
`max(schedule) = 5`, the quantity the claim says the harness observes the
counter to reach. -/
theorem c8_counter_below_max_schedule :
    (test_memory_usage_exception_in_get_memory_call goodProvider sdSetCallCount sdAppend 7
      (initState [1] "uss") [2, 5] 5).raisedRuntimeError = true
    ∧ (test_memory_usage_exception_in_get_memory_call goodProvider sdSetCallCount sdAppend 7
        (initState [1] "uss") [2, 5] 5).expectedCount = 5
    ∧ (test_memory_usage_exception_in_get_memory_call goodProvider sdSetCallCount sdAppend 7
        (initState [1] "uss") [2, 5] 5).finalState.callCount = 2
    ∧ ¬((test_memory_usage_exception_in_get_memory_call goodProvider sdSetCallCount sdAppend 7
        (initState [1] "uss") [2, 5] 5).expectedCount ≤
      (test_memory_usage_exception_in_get_memory_call goodProvider sdSetCallCount sdAppend 7
        (initState [1] "uss") [2, 5] 5).finalState.callCount) := by
  exact ⟨rfl, rfl, rfl, by decide⟩

/-- C8 (amended): for a non-empty fault schedule whose first reachable index
lies within the sampling budget, the scenario runner's `pytest.raises`
expectation of a `RuntimeError` is met and the final call counter is a
member of the schedule (hence at least `min(schedule)`, and at least 1 for
schedule `{1}`), but not necessarily at least `max(schedule)`; the runner
computes `expected_count = max(when + [1])` without asserting on it (the
counter assertions in the source are commented out). -/
theorem c8_runner_raises_and_counter_in_schedule
    (orig : List Subject → Except PyErr StatsRecord)
    (wcc : SharedData → Nat → Except PyErr SharedData)
    (wapp : SharedData → StatsRecord → Except PyErr SharedData)
    (pid : Subject) (st : MockState) (when : List Nat) (budget : Nat) (r : StatsRecord)
    (ho : orig [pid] = .ok r) (hf : r.hasField st.attrName = true)
    (hattr : st.attrName = "uss") (hsd : st.sharedData = none)
    (hsched : ∃ k ∈ when, st.callCount < k ∧ k ≤ st.callCount + budget) :
    (test_memory_usage_exception_in_get_memory_call orig wcc wapp pid st when
      budget).raisedRuntimeError = true
    ∧ (test_memory_usage_exception_in_get_memory_call orig wcc wapp pid st when
        budget).finalState.callCount ∈ when
    ∧ (test_memory_usage_exception_in_get_memory_call orig wcc wapp pid st when
        budget).expectedCount = (when ++ [1]).foldl Nat.max 0 := by
  have h := memoryUsage_raises orig wcc wapp pid budget { st with failWhen := when } r
    ho hf hattr hsd hsched
  unfold test_memory_usage_exception_in_get_memory_call
  dsimp only
  rw [h.1]
  exact ⟨rfl, h.2, rfl⟩

/-- Witness for C8 (amended): schedule `{1}` with budget 3 — the run raises,
and the counter ends on a scheduled index (concretely 1, hence at least
1). -/
theorem c8_runner_raises_witness :
    (test_memory_usage_exception_in_get_memory_call goodProvider sdSetCallCount sdAppend 7
      (initState [1] "uss") [1] 3).raisedRuntimeError = true
    ∧ (test_memory_usage_exception_in_get_memory_call goodProvider sdSetCallCount sdAppend 7
        (initState [1] "uss") [1] 3).finalState.callCount ∈ [1]
    ∧ (test_memory_usage_exception_in_get_memory_call goodProvider sdSetCallCount sdAppend 7
        (initState [1] "uss") [1] 3).finalState.callCount = 1 := by
  have h := c8_runner_raises_and_counter_in_schedule goodProvider sdSetCallCount sdAppend 7
    (initState [1] "uss") [1] 3 sampleRecord rfl (by decide) rfl rfl
    ⟨1, by decide, by decide, by decide⟩
  exact ⟨h.1, h.2.1, rfl⟩

/-! ## C9: lifecycle of the channel's backing process-manager in `main` -/

/-- The resource-relevant operations `main` can perform on the manager and
the channel. -/
inductive MainEvent : Type where
  /-- `mgr = SyncManager(); mgr.start()` -/
  | managerStart : MainEvent
  /-- `shared_data = mgr.dict([("mock_returns", mgr.list())])` -/
  | channelCreate : MainEvent
  /-- `shared_mock.shared_data = shared_data` -/
  | channelBind : MainEvent
  /-- the scenario run under the patches -/
  | scenarioRun : MainEvent
  /-- `mgr.shutdown()` (or an equivalent explicit stop) -/
  | managerShutdown : MainEvent
deriving DecidableEq, Repr

/-- The ordered resource events of `main` (source lines 204-242): the
manager is constructed and started (lines 211-213), the shared dict is
created from it (line 218) and bound to the proxy (line 220), and the
scenario is run under the patches (line 236).  `main` contains no
`mgr.shutdown()` (nor any other explicit stop) before returning — only
prints of `mgr.address` and of the dict's keys. -/
def mainEvents : List MainEvent :=
  [.managerStart, .channelCreate, .channelBind, .scenarioRun]

/-- Evidence against C9 as stated: no explicit stop of the manager occurs
anywhere in `main`, in particular not after the run completes. -/
theorem c9_manager_never_stopped :
    MainEvent.managerShutdown ∉ mainEvents := by
  decide

/-- C9 (amended): `main` explicitly starts the backing process-manager
before the shared channel is created from it (and before any use), but it
never explicitly stops it — the manager process is left to die with the
interpreter. -/
theorem c9_manager_started_before_use_never_stopped :
    mainEvents.indexOf MainEvent.managerStart < mainEvents.indexOf MainEvent.channelCreate
    ∧ MainEvent.managerStart ∈ mainEvents
    ∧ MainEvent.managerShutdown ∉ mainEvents := by
  decide

/-! ## C10: constructor defaults and the shared mutable default schedule -/

/-- A heap of Python list objects, addressed by position. -/
structure PyHeap : Type where
  lists : List (List Nat)
deriving Repr

/-- The module-level default objects of `MockMemoryInfo.__init__` (source
lines 62-63): the default argument `fail_when=[1]` is evaluated once, when
the `def` statement runs, producing a single list object — address 0. -/
def moduleHeap : PyHeap := ⟨[[1]]⟩

/-- A `MockMemoryInfo` instance at the object level: `fail_when` is a
reference to a heap list, everything else as in `MockState`. -/
structure MockRef : Type where
  failWhenAddr : Nat
  attrName : String
  callCount : Nat
  mockReturns : List StatsRecord
  sharedData : Option SharedData
  parentMock : Option Subject
deriving Repr

/-- `MockMemoryInfo.__init__` (source lines 62-70) at the object level: an
explicit `fail_when` argument supplies a caller-side list object (allocated
fresh here), while omitting it aliases the single module-level default list
at address 0; `name` defaults to the immutable string `'uss'`.  The new
instance starts with counter 0, empty log, no channel and no resolver. -/
def mkMockMemoryInfo (h : PyHeap) (failWhenArg : Option (List Nat))
    (nameArg : Option String) : PyHeap × MockRef :=
  match failWhenArg with
  | some l =>
    (⟨h.lists ++ [l]⟩,
      { failWhenAddr := h.lists.length, attrName := nameArg.getD "uss",
        callCount := 0, mockReturns := [], sharedData := none, parentMock := none })
  | none =>
    (h,
      { failWhenAddr := 0, attrName := nameArg.getD "uss",
        callCount := 0, mockReturns := [], sharedData := none, parentMock := none })

/-- Read a `MockRef` through a heap into the by-value `MockState`. -/
def MockRef.deref (m : MockRef) (h : PyHeap) : MockState :=
  { failWhen := h.lists.getD m.failWhenAddr []
    attrName := m.attrName
    callCount := m.callCount
    mockReturns := m.mockReturns
    sharedData := m.sharedData
    parentMock := m.parentMock }

/-- C10: a proxy constructed with no arguments defaults to fault schedule
`[1]` and target field `uss`, with no channel and no resolver; two proxies
constructed without an explicit schedule reference the same default list
object (so they read the same schedule through every heap); and under the
default schedule a returned derived record has the missing sentinel exactly
when the call counter is 1. -/
theorem c10_default_schedule_shared :
    (mkMockMemoryInfo moduleHeap none none).2.attrName = "uss"
    ∧ (mkMockMemoryInfo moduleHeap none none).2.sharedData = none
    ∧ (mkMockMemoryInfo moduleHeap none none).2.parentMock = none
    ∧ ((mkMockMemoryInfo moduleHeap none none).2.deref
        (mkMockMemoryInfo (mkMockMemoryInfo moduleHeap none none).1 none none).1).failWhen = [1]
    ∧ (mkMockMemoryInfo moduleHeap none none).2.failWhenAddr =
      (mkMockMemoryInfo (mkMockMemoryInfo moduleHeap none none).1 none none).2.failWhenAddr
    ∧ (∀ h : PyHeap,
        ((mkMockMemoryInfo moduleHeap none none).2.deref h).failWhen =
        ((mkMockMemoryInfo (mkMockMemoryInfo moduleHeap none none).1 none none).2.deref h).failWhen)
    ∧ (∀ (st : MockState) (minfo m : StatsRecord),
        st.failWhen = [1] →
        (processRecord sdSetCallCount sdAppend st minfo).2 = .ok m →
        m.getField st.attrName =
          some (if st.callCount = 1 then none else some 123456789)) := by
  refine ⟨rfl, rfl, rfl, rfl, rfl, fun h => rfl, ?_⟩
  intro st minfo m hfw hok
  have hrep := processRecord_ok_inv sdSetCallCount sdAppend st minfo m hok
  rw [hfw] at hrep
  by_cases hk : st.callCount = 1
  · rw [if_pos hk]
    rw [if_pos (by simp [hk])] at hrep
    exact replaceField_getField minfo st.attrName none m hrep
  · rw [if_neg hk]
    rw [if_neg (by simp [hk])] at hrep
    exact replaceField_getField minfo st.attrName (some 123456789) m hrep

/-- Witness for C10: on a default-schedule proxy at call counter 1, the
derived record carries the missing sentinel. -/
theorem c10_default_schedule_shared_witness :
    ∃ m, (processRecord sdSetCallCount sdAppend
        { initState [1] "uss" with callCount := 1 } sampleRecord).2 = .ok m
      ∧ m.getField "uss" = some none := by
  refine ⟨⟨[("rss", some 1000), ("vms", some 2000), ("uss", none), ("swap", some 0)]⟩,
    rfl, ?_⟩
  have h := c10_default_schedule_shared.2.2.2.2.2.2
    { initState [1] "uss" with callCount := 1 } sampleRecord
    ⟨[("rss", some 1000), ("vms", some 2000), ("uss", none), ("swap", some 0)]⟩ rfl rfl
  simpa using h
